import Mathlib

/-!
Shallow embedding of the marco recipe system (directory `src/marco` of the
repository) and proofs about its conversation log, scoring engine, iteration
policy and workflow graph.

Modelling conventions, used uniformly below:
* Python strings are modelled as lists of characters (`Str`); Python's
  substring test `a in b` becomes `inStr a b`, and `str.lower` becomes
  a character-wise `Char.toLower`.
* The floats flowing through the scoring code are modelled as rationals.
  Every value those code paths produce is a small multiple of 0.5, on which
  IEEE double arithmetic is exact, so the rational model computes the same
  numbers as the Python code.
* Python dicts (which preserve insertion order) are modelled as association
  lists; pydantic models become structures, `Optional` fields become `Option`.
* Identity-relevant external effects (UUID generation, wall-clock timestamps,
  console printing) do not influence any control flow or any field a claim
  talks about; message ids and timestamps are modelled as fixed values and
  printing is dropped.
-/

/-- A Python string, as a list of characters. -/
abbrev Str : Type := List Char

/-- Python `s.lower()`. -/
def lower (s : Str) : Str := s.map Char.toLower

/-- Python slice `l[-n:]`: the last `n` elements, or all of them when the
list has fewer than `n`. -/
def lastSlice (n : Nat) (l : List α) : List α := l.drop (l.length - n)

/-- Python substring membership `needle in haystack` on strings: `needle`
occurs contiguously somewhere in `haystack`. -/
def inStr (needle haystack : Str) : Bool :=
  (List.range (haystack.length + 1)).any
    (fun i => needle.isPrefixOf (haystack.drop i))

/-- `ExpertRole` from `marco/schemas.py`. -/
inductive ExpertRole
  | nutritionist
  | chef
  | seasonal_expert
  | psychonutritionist
deriving DecidableEq

/-- `MessageType` from `marco/schemas.py`. -/
inductive MessageType
  | suggestion
  | question
  | opinion
  | approval
  | concern
  | modification
  | final_decision
deriving DecidableEq

/-- `ExpertMessage` from `marco/schemas.py`.  The `datetime` timestamp is
modelled as a natural number and the free-form metadata dict as an
association list of strings. -/
structure ExpertMessage where
  id : Str
  from_expert : ExpertRole
  to_expert : Option ExpertRole
  message_type : MessageType
  content : Str
  timestamp : Nat
  reference_to : Option Str
  metadata : List (Str × Str)
deriving DecidableEq

/-- `ExpertProfile` from `marco/schemas.py`. -/
structure ExpertProfile where
  role : ExpertRole
  name : Str
  specialization : Str
  concerns : List Str
  communication_style : Str
deriving DecidableEq

/-- `Ingredient` from `marco/schemas.py`. -/
structure Ingredient where
  name : Str
  quantity : ℚ
  unit : Str
  notes : Option Str
deriving DecidableEq

/-- `NutrientInfo` from `marco/schemas.py` (per-serving nutrition facts). -/
structure NutrientInfo where
  calories : Int
  protein_g : ℚ
  carbs_g : ℚ
  fat_g : ℚ
  fiber_g : ℚ
  omega3_mg : Option ℚ
  magnesium_mg : Option ℚ
  vitamin_b6_mg : Option ℚ
  vitamin_b12_mcg : Option ℚ
  tryptophan_mg : Option ℚ
  zinc_mg : Option ℚ
deriving DecidableEq

/-- `PsychonutritionAnalysis` from `marco/schemas.py`. -/
structure PsychonutritionAnalysis where
  anxiety_score : ℚ
  key_nutrients : List Str
  mechanisms : List Str
  recommendations : List Str
  cautions : Option (List Str)
deriving DecidableEq

/-- `Recipe` from `marco/schemas.py`. -/
structure Recipe where
  name : Str
  description : Str
  prep_time : Int
  cook_time : Int
  servings : Int
  ingredients : List Ingredient
  instructions : List Str
  nutrition : Option NutrientInfo
  psychonutrition_analysis : Option PsychonutritionAnalysis
  tags : List Str
  difficulty : Str
  cuisine : Option Str
  season : Option Str
  chef_tips : List Str
  storage_instructions : Option Str
  variations : List Str
deriving DecidableEq

/-- `IngredientSubstitution` from `marco/schemas.py`. -/
structure IngredientSubstitution where
  original : Str
  substitute : Str
  reason : Str
  adjustment : Option Str
deriving DecidableEq

/-- `SeasonalVariation` from `marco/schemas.py`. -/
structure SeasonalVariation where
  name : Str
  season : Str
  region : Str
  substitutions : List IngredientSubstitution
  notes : Option Str
deriving DecidableEq

/-- `RecipeRequest` from `marco/schemas.py`. -/
structure RecipeRequest where
  description : Str
  anxiety_focus : Bool
  dietary_restrictions : List Str
  season : Str
  region : Str
  servings : Int
deriving DecidableEq

/-- `ConversationContext` from `marco/schemas.py`. -/
structure ConversationContext where
  topic : Str
  phase : Str
  decisions_made : List Str
  pending_questions : List Str
  consensus_reached : Bool
deriving DecidableEq

/-- `RecipeState` from `marco/schemas.py`: the single shared state threaded
through the workflow.  The legacy `messages` list of dicts is modelled as a
list of (role, content) string pairs. -/
structure RecipeState where
  request : RecipeRequest
  recipe : Option Recipe
  seasonal_variation : Option SeasonalVariation
  experts : List (ExpertRole × ExpertProfile)
  conversation : List ExpertMessage
  conversation_context : ConversationContext
  messages : List (Str × Str)
  errors : List Str
deriving DecidableEq

/-- One value of the `nutrients` dict of `data/nutrients.json` as the code
reads it: `.get("sources", [])` means a missing source list is the empty
list, and `mechanism` / `recommendation` are optional.  An absent or empty
optional text field is falsy in Python, which the consumers test with
`if nutrient_info.get("mechanism"):`. -/
structure NutrientEntry where
  name : Str
  sources : List Str
  anxiety_benefit : Str
  mechanism : Option Str
  recommendation : Option Str
deriving DecidableEq

/-- One entry of the `food_combinations` list of `data/nutrients.json`. -/
structure FoodCombination where
  combination : Str
deriving DecidableEq

/-- The nutrient database dict returned by `load_nutrient_database`:
insertion-ordered `nutrients` dict (association list) plus the
`food_combinations` list. -/
structure NutrientDb where
  nutrients : List (Str × NutrientEntry)
  food_combinations : List FoodCombination
deriving DecidableEq

/-- `nutrient_db.get("nutrients", {}).get("probiotics", {}).get("sources", [])`. -/
def probioticSources (nutrients : List (Str × NutrientEntry)) : List Str :=
  match List.lookup ("probiotics".data) nutrients with
  | some info => info.sources
  | none => []

/-- `combo["combination"].lower().split(" + ")` from both scoring paths:
lower the combination text and split it on the literal separator. -/
def comboParts (combination : Str) : List Str :=
  ((String.mk (lower combination)).splitOn " + ").map (fun part => part.data)

/-- `calculate_anxiety_score` from `marco/agents/psychonutrition.py`
(lines 21-56), the basic scoring path.  A per-nutrient contribution
`min(1.5, 0.5 * match_count)` for every nutrient category with at least one
matching ingredient, a flat 0.5 per qualifying food combination, a flat 0.5
probiotic bonus, and a final cap `min(10.0, score)`. -/
def calculate_anxiety_score (recipe : Recipe) (nutrient_db : NutrientDb) : ℚ :=
  let nutrients := nutrient_db.nutrients
  let ingredient_names := recipe.ingredients.map (fun ing => lower ing.name)
  let score1 := nutrients.foldl (fun score nutrient =>
    let sources := nutrient.2.sources.map lower
    let matched := ingredient_names.filter (fun ing =>
      sources.any (fun source => inStr source ing))
    if !matched.isEmpty then
      score + min (3/2 : ℚ) ((matched.length : ℚ) * (1/2))
    else score) 0
  let score2 := nutrient_db.food_combinations.foldl (fun score combo =>
    let combo_ingredients := comboParts combo.combination
    if 2 ≤ combo_ingredients.countP (fun ci =>
        ingredient_names.any (fun ing => inStr ci ing)) then
      score + 1/2
    else score) score1
  let probiotic_sources := (probioticSources nutrients).map lower
  let score3 :=
    if ingredient_names.any (fun ing =>
        probiotic_sources.any (fun source => inStr source ing)) then
      score2 + 1/2
    else score2
  min 10 score3

/-- `calculate_anxiety_score` from
`marco/agents/psychonutrition_collaborative.py` (lines 26-52), the
collaborative scoring path.  Identical to the basic path except that the
probiotic bonus is 1.0 (and the generator in its `any(...)` iterates
sources in the outer loop, and the final cap is written `min(score, 10.0)`). -/
def calculate_anxiety_score_collab (recipe : Recipe) (nutrient_db : NutrientDb) : ℚ :=
  let nutrients := nutrient_db.nutrients
  let ingredient_names := recipe.ingredients.map (fun ing => lower ing.name)
  let score1 := nutrients.foldl (fun score nutrient =>
    let sources := nutrient.2.sources.map lower
    let matched := ingredient_names.filter (fun ing =>
      sources.any (fun source => inStr source ing))
    if !matched.isEmpty then
      score + min (3/2 : ℚ) ((matched.length : ℚ) * (1/2))
    else score) 0
  let score2 := nutrient_db.food_combinations.foldl (fun score combo =>
    let combo_ingredients := comboParts combo.combination
    if 2 ≤ combo_ingredients.countP (fun ci =>
        ingredient_names.any (fun ing => inStr ci ing)) then
      score + 1/2
    else score) score1
  let probiotic_sources := (probioticSources nutrients).map lower
  let score3 :=
    if probiotic_sources.any (fun source =>
        ingredient_names.any (fun ing => inStr source ing)) then
      score2 + 1
    else score2
  min score3 10

/-- The running score both paths have accumulated just before the probiotic
bonus: the per-nutrient fold followed by the food-combination fold.  Both
source functions compute exactly this value (their first two loops are
textually identical). -/
def pre_probiotic_score (recipe : Recipe) (nutrient_db : NutrientDb) : ℚ :=
  let nutrients := nutrient_db.nutrients
  let ingredient_names := recipe.ingredients.map (fun ing => lower ing.name)
  let score1 := nutrients.foldl (fun score nutrient =>
    let sources := nutrient.2.sources.map lower
    let matched := ingredient_names.filter (fun ing =>
      sources.any (fun source => inStr source ing))
    if !matched.isEmpty then
      score + min (3/2 : ℚ) ((matched.length : ℚ) * (1/2))
    else score) 0
  nutrient_db.food_combinations.foldl (fun score combo =>
    let combo_ingredients := comboParts combo.combination
    if 2 ≤ combo_ingredients.countP (fun ci =>
        ingredient_names.any (fun ing => inStr ci ing)) then
      score + 1/2
    else score) score1

/-- The basic path's probiotic test: some probiotic source substring occurs
in some lowered ingredient name (ingredient-outer iteration order, as in
`psychonutrition.py`). -/
def has_probiotic_match (recipe : Recipe) (nutrient_db : NutrientDb) : Bool :=
  let ingredient_names := recipe.ingredients.map (fun ing => lower ing.name)
  let probiotic_sources := (probioticSources nutrient_db.nutrients).map lower
  ingredient_names.any (fun ing =>
    probiotic_sources.any (fun source => inStr source ing))

/-- The collaborative path's probiotic test (source-outer iteration order,
as in `psychonutrition_collaborative.py`). -/
def has_probiotic_match_collab (recipe : Recipe) (nutrient_db : NutrientDb) : Bool :=
  let ingredient_names := recipe.ingredients.map (fun ing => lower ing.name)
  let probiotic_sources := (probioticSources nutrient_db.nutrients).map lower
  probiotic_sources.any (fun source =>
    ingredient_names.any (fun ing => inStr source ing))

theorem any_any_swap (l₁ : List α) (l₂ : List β) (p : α → β → Bool) :
    l₁.any (fun a => l₂.any (fun b => p a b)) =
      l₂.any (fun b => l₁.any (fun a => p a b)) := by
  rw [Bool.eq_iff_iff]
  simp only [List.any_eq_true]
  constructor
  · rintro ⟨a, ha, b, hb, hab⟩
    exact ⟨b, hb, a, ha, hab⟩
  · rintro ⟨b, hb, a, ha, hab⟩
    exact ⟨a, ha, b, hb, hab⟩

theorem probiotic_match_collab_eq (recipe : Recipe) (nutrient_db : NutrientDb) :
    has_probiotic_match_collab recipe nutrient_db =
      has_probiotic_match recipe nutrient_db := by
  unfold has_probiotic_match has_probiotic_match_collab
  exact (any_any_swap _ _ _).symm

/-- A fold whose step never decreases the accumulator is bounded below by
its initial value. -/
theorem foldl_ge_init (f : ℚ → α → ℚ) (hf : ∀ s x, s ≤ f s x) :
    ∀ (l : List α) (init : ℚ), init ≤ l.foldl f init := by
  intro l
  induction l with
  | nil => intro init; exact le_refl init
  | cons x xs ih =>
    intro init
    exact le_trans (hf init x) (ih (f init x))

theorem pre_probiotic_score_nonneg (recipe : Recipe) (nutrient_db : NutrientDb) :
    0 ≤ pre_probiotic_score recipe nutrient_db := by
  unfold pre_probiotic_score
  refine le_trans ?_ (foldl_ge_init _ ?_ _ _)
  · refine foldl_ge_init _ ?_ _ _
    intro s x
    dsimp only
    split
    · refine le_add_of_nonneg_right (le_min (by norm_num) ?_)
      positivity
    · exact le_refl s
  · intro s x
    dsimp only
    split
    · linarith
    · exact le_refl s

/-- The basic scorer, rewritten through the shared pre-probiotic sum.  This
is a definitional unfolding of `calculate_anxiety_score`. -/
theorem calculate_anxiety_score_eq (recipe : Recipe) (nutrient_db : NutrientDb) :
    calculate_anxiety_score recipe nutrient_db =
      min 10 (if has_probiotic_match recipe nutrient_db then
        pre_probiotic_score recipe nutrient_db + 1/2
      else pre_probiotic_score recipe nutrient_db) := rfl

/-- The collaborative scorer, rewritten through the shared pre-probiotic
sum; its own cap is `min score 10`, flipped here by commutativity. -/
theorem calculate_anxiety_score_collab_eq (recipe : Recipe) (nutrient_db : NutrientDb) :
    calculate_anxiety_score_collab recipe nutrient_db =
      min 10 (if has_probiotic_match recipe nutrient_db then
        pre_probiotic_score recipe nutrient_db + 1
      else pre_probiotic_score recipe nutrient_db) := by
  rw [← probiotic_match_collab_eq]
  unfold calculate_anxiety_score_collab has_probiotic_match_collab pre_probiotic_score
  dsimp only
  rw [min_comm]

/-- C1: for every recipe and nutrient database, both the basic and the
collaborative `calculate_anxiety_score` return a value in the closed
interval [0, 10]: each is a sum of non-negative contributions capped above
by `min _ 10`. -/
theorem anxiety_score_in_range (recipe : Recipe) (nutrient_db : NutrientDb) :
    0 ≤ calculate_anxiety_score recipe nutrient_db ∧
      calculate_anxiety_score recipe nutrient_db ≤ 10 ∧
      0 ≤ calculate_anxiety_score_collab recipe nutrient_db ∧
      calculate_anxiety_score_collab recipe nutrient_db ≤ 10 := by
  have hpre := pre_probiotic_score_nonneg recipe nutrient_db
  rw [calculate_anxiety_score_eq, calculate_anxiety_score_collab_eq]
  refine ⟨le_min (by norm_num) ?_, min_le_left _ _,
    le_min (by norm_num) ?_, min_le_left _ _⟩ <;> split <;> linarith

/-- The fixed expert profile table built in `ConversationManager.__init__`
(`marco/conversation.py`).  Exactly three roles receive a profile; the
`nutritionist` role never does. -/
def expert_profiles : List (ExpertRole × ExpertProfile) :=
  [ (ExpertRole.psychonutritionist,
      { role := ExpertRole.psychonutritionist
        name := "Dr. Maya Chen".data
        specialization := "Psychonutrition and anxiety management".data
        concerns := [ "anxiety-reducing nutrients".data,
          "mood-stabilizing compounds".data,
          "stress-response optimization".data,
          "gut-brain axis health".data ]
        communication_style :=
          "Scientific but approachable, focuses on evidence-based nutrition".data }),
    (ExpertRole.seasonal_expert,
      { role := ExpertRole.seasonal_expert
        name := "Chef Marco Rossi".data
        specialization := "Seasonal and sustainable cooking".data
        concerns := [ "ingredient seasonality".data,
          "local availability".data,
          "environmental impact".data,
          "peak flavor timing".data ]
        communication_style :=
          "Passionate about seasonality, speaks from experience with local farms".data }),
    (ExpertRole.chef,
      { role := ExpertRole.chef
        name := "Chef Isabella Laurent".data
        specialization := "Culinary technique and flavor harmony".data
        concerns := [ "cooking techniques".data,
          "flavor balance".data,
          "texture combinations".data,
          "presentation".data,
          "cooking times and temperatures".data ]
        communication_style :=
          "Detail-oriented, focuses on technique and perfect execution".data }) ]

/-- `ConversationManager.initialize_experts`: store a copy of the fixed
profile table in the state. -/
def initialize_experts (state : RecipeState) : RecipeState :=
  { state with experts := expert_profiles }

/-- `ConversationManager.add_message`: build an `ExpertMessage` and append
it to the conversation log.  The UUID and timestamp are external
nondeterminism; the id is modelled by the current log length rendered as a
string and the timestamp by a constant, neither of which any consumer
branches on. -/
def add_message (state : RecipeState) (from_expert : ExpertRole) (content : Str)
    (message_type : MessageType) (to_expert : Option ExpertRole)
    (reference_to : Option Str) (metadata : Option (List (Str × Str))) :
    RecipeState :=
  { state with conversation := state.conversation ++
      [ { id := (Nat.repr state.conversation.length).data
          from_expert := from_expert
          to_expert := to_expert
          message_type := message_type
          content := content
          timestamp := 0
          reference_to := reference_to
          metadata := metadata.getD [] } ] }

/-- `ConversationManager.get_conversation_for_expert`
(`marco/conversation.py` lines 88-108): keep, in log order, every message
that is addressed to the expert, or from the expert, or — when
`include_general` is set — a broadcast (`to_expert is None`).  The
`if`/`elif` chain of the source appends each message at most once, which is
exactly a filter by the chain condition. -/
def get_conversation_for_expert (state : RecipeState) (expert : ExpertRole)
    (include_general : Bool) : List ExpertMessage :=
  state.conversation.filter (fun msg =>
    if msg.to_expert == some expert then true
    else if msg.from_expert == expert then true
    else if include_general && msg.to_expert == none then true
    else false)

/-- `ConversationManager.check_consensus` (`marco/conversation.py` lines
136-150): strictly more approval-typed than concern-typed messages among
the last 5 log entries. -/
def check_consensus (state : RecipeState) : Bool :=
  let recent_messages := lastSlice 5 state.conversation
  let approval_count := recent_messages.countP
    (fun msg => msg.message_type == MessageType.approval)
  let concern_count := recent_messages.countP
    (fun msg => msg.message_type == MessageType.concern)
  decide (concern_count < approval_count)

/-- `ConversationManager.update_context` (`marco/conversation.py` lines
152-176).  Each argument is guarded by Python truthiness (`if topic:`), so
`None` and the empty string are both skipped; `decision` and `question`
append; `consensus_reached` is always recomputed from the state at that
point. -/
def update_context (state : RecipeState) (topic phase decision question : Option Str) :
    RecipeState :=
  let s1 := match topic with
    | some t =>
      if t ≠ [] then
        { state with conversation_context := { state.conversation_context with topic := t } }
      else state
    | none => state
  let s2 := match phase with
    | some p =>
      if p ≠ [] then
        { s1 with conversation_context := { s1.conversation_context with phase := p } }
      else s1
    | none => s1
  let s3 := match decision with
    | some d =>
      if d ≠ [] then
        { s2 with conversation_context := { s2.conversation_context with
            decisions_made := s2.conversation_context.decisions_made ++ [d] } }
      else s2
    | none => s2
  let s4 := match question with
    | some q =>
      if q ≠ [] then
        { s3 with conversation_context := { s3.conversation_context with
            pending_questions := s3.conversation_context.pending_questions ++ [q] } }
      else s3
    | none => s3
  { s4 with conversation_context := { s4.conversation_context with
      consensus_reached := check_consensus s4 } }

theorem lastSlice_eq_reverse_take (n : Nat) (l : List α) :
    lastSlice n l = (l.reverse.take n).reverse :=
  List.rtake_eq_reverse_take_reverse l n

/-- A concrete five-message window used to exercise `check_consensus`:
`k` approvals followed by `m` concerns followed by padding suggestions, in
a log of exactly 5 messages. -/
def consensusWindowState (k m : Nat) : RecipeState :=
  { request :=
      { description := "test".data
        anxiety_focus := true
        dietary_restrictions := []
        season := "auto".data
        region := "europe".data
        servings := 4 }
    recipe := none
    seasonal_variation := none
    experts := []
    conversation :=
      (List.replicate k
        ({ id := []
           from_expert := ExpertRole.psychonutritionist
           to_expert := none
           message_type := MessageType.approval
           content := []
           timestamp := 0
           reference_to := none
           metadata := [] } : ExpertMessage)) ++
      (List.replicate m
        ({ id := []
           from_expert := ExpertRole.chef
           to_expert := none
           message_type := MessageType.concern
           content := []
           timestamp := 0
           reference_to := none
           metadata := [] } : ExpertMessage)) ++
      (List.replicate (5 - k - m)
        ({ id := []
           from_expert := ExpertRole.seasonal_expert
           to_expert := none
           message_type := MessageType.suggestion
           content := []
           timestamp := 0
           reference_to := none
           metadata := [] } : ExpertMessage))
    conversation_context :=
      { topic := "Recipe Planning".data
        phase := "planning".data
        decisions_made := []
        pending_questions := []
        consensus_reached := false }
    messages := []
    errors := [] }

/-- C5: `check_consensus` looks at the last 5 messages (all of them when
the log is shorter) and is true exactly when approval-typed messages
strictly outnumber concern-typed ones in that window; a 5-message window
with 3 approvals and 1 concern yields true, and 2 approvals with 2
concerns yields false. -/
theorem check_consensus_spec :
    (∀ state : RecipeState,
      check_consensus state = true ↔
        ((state.conversation.reverse.take 5).countP
            (fun msg => msg.message_type == MessageType.concern) <
          (state.conversation.reverse.take 5).countP
            (fun msg => msg.message_type == MessageType.approval))) ∧
      check_consensus (consensusWindowState 3 1) = true ∧
      check_consensus (consensusWindowState 2 2) = false := by
  refine ⟨fun state => ?_, by decide, by decide⟩
  unfold check_consensus
  rw [lastSlice_eq_reverse_take]
  simp [List.countP_reverse]

/-- C7: `get_conversation_for_expert` is exactly the order-preserving
filter keeping messages with `to_expert == expert`, or
`from_expert == expert`, or (`include_general` and broadcast); in
particular the result is a sublist of the log (original order, no
duplication), and the function is a pure function of its arguments, so two
calls on the same state and expert return the same list. -/
theorem get_conversation_for_expert_spec :
    ∀ (state : RecipeState) (expert : ExpertRole) (include_general : Bool),
      get_conversation_for_expert state expert include_general =
          state.conversation.filter (fun msg =>
            msg.to_expert == some expert || msg.from_expert == expert ||
              (include_general && msg.to_expert == none)) ∧
        (get_conversation_for_expert state expert include_general).Sublist
          state.conversation := by
  intro state expert include_general
  constructor
  · unfold get_conversation_for_expert
    apply List.filter_congr
    intro msg _
    cases h1 : msg.to_expert == some expert <;>
      cases h2 : msg.from_expert == expert <;>
        cases h3 : include_general && msg.to_expert == none <;> simp [h1, h2, h3]
  · exact List.filter_sublist _

/-- `RecipeIterator.target_anxiety_score` (6.0) from
`marco/recipe_iterator.py`. -/
def target_anxiety_score : ℚ := 6

/-- `RecipeIterator.should_iterate_recipe` (`marco/recipe_iterator.py`
lines 20-37): false without a recipe and analysis; true when the anxiety
score is below the 6.0 target; otherwise true exactly when a concern-typed
message occurs in the last 5 conversation entries. -/
def should_iterate_recipe (state : RecipeState) : Bool :=
  match state.recipe with
  | none => false
  | some recipe =>
    match recipe.psychonutrition_analysis with
    | none => false
    | some analysis =>
      if analysis.anxiety_score < target_anxiety_score then true
      else
        let concern_count := (lastSlice 5 state.conversation).countP
          (fun msg => msg.message_type == MessageType.concern)
        decide (0 < concern_count)

/-- The fixed keyword vocabulary of `get_improvement_suggestions`. -/
def improvement_keywords : List Str :=
  ["walnut".data, "chia".data, "spinach".data, "kale".data, "pumpkin seed".data]

/-- The suggestion strings one scanned message contributes in
`get_improvement_suggestions`, in source order (the surrounding guard has
already established that "add" and some keyword occur in `content`). -/
def message_suggestions (content : Str) : List Str :=
  (if inStr ("walnut".data) content then
    ["Add walnuts for omega-3 and magnesium".data] else []) ++
  (if inStr ("chia".data) content || inStr ("chia seeds".data) content then
    ["Add chia seeds for omega-3 and fiber".data] else []) ++
  (if inStr ("spinach".data) content then
    ["Add spinach for magnesium and folate".data] else []) ++
  (if inStr ("kale".data) content then
    ["Add kale for magnesium and antioxidants".data] else []) ++
  (if inStr ("pumpkin seed".data) content then
    ["Add pumpkin seeds for magnesium and zinc".data] else [])

/-- The fallback suggestion texts of `get_improvement_suggestions`, used
when the scan found nothing and the anxiety score is below 5.0. -/
def default_suggestions : List Str :=
  [ "Add walnuts for omega-3 fatty acids and magnesium".data,
    "Include spinach or kale for magnesium and B vitamins".data,
    "Add avocado for healthy fats and magnesium".data ]

/-- `state.recipe.psychonutrition_analysis.anxiety_score` as read by the
default branch of `get_improvement_suggestions`.  The source expression
presupposes a recipe with an analysis (callers reach it only behind
`should_iterate_recipe`); on states without one — where the Python code
would raise — the value is modelled as 0. -/
def current_anxiety_score (state : RecipeState) : ℚ :=
  match state.recipe with
  | some recipe =>
    match recipe.psychonutrition_analysis with
    | some analysis => analysis.anxiety_score
    | none => 0
  | none => 0

/-- `RecipeIterator.get_improvement_suggestions`
(`marco/recipe_iterator.py` lines 39-71): scan the last 10 messages for an
improvement keyword mentioned alongside "add", collecting canned
suggestion strings; if nothing matched and the anxiety score is below 5.0,
fall back to `default_suggestions`; return at most 3. -/
def get_improvement_suggestions (state : RecipeState) : List Str :=
  let suggestions := (lastSlice 10 state.conversation).foldl (fun acc msg =>
    let content := lower msg.content
    if inStr ("add".data) content &&
        improvement_keywords.any (fun keyword => inStr keyword content) then
      acc ++ message_suggestions content
    else acc) []
  let suggestions :=
    if suggestions.isEmpty && decide (current_anxiety_score state < 5) then
      default_suggestions
    else suggestions
  suggestions.take 3

/-- The ingredients one suggestion string contributes in `improve_recipe`,
in source order of the six keyword checks. -/
def suggestion_ingredients (suggestion : Str) : List Ingredient :=
  let s := lower suggestion
  (if inStr ("walnut".data) s then
    [{ name := "chopped walnuts".data, quantity := mkRat 1 4, unit := "cup".data, notes := none }]
  else []) ++
  (if inStr ("chia".data) s then
    [{ name := "chia seeds".data, quantity := 1, unit := "tbsp".data, notes := none }]
  else []) ++
  (if inStr ("spinach".data) s then
    [{ name := "fresh spinach".data, quantity := 2, unit := "cups".data, notes := none }]
  else []) ++
  (if inStr ("kale".data) s then
    [{ name := "chopped kale".data, quantity := 1, unit := "cup".data, notes := none }]
  else []) ++
  (if inStr ("pumpkin seed".data) s then
    [{ name := "pumpkin seeds".data, quantity := 2, unit := "tbsp".data, notes := none }]
  else []) ++
  (if inStr ("avocado".data) s then
    [{ name := "avocado".data, quantity := 1, unit := "whole".data, notes := none }]
  else [])

/-- The fixed fallback ingredient triple of `improve_recipe`, used when the
suggestion loop produced no ingredient. -/
def default_anxiety_boosting_ingredients : List Ingredient :=
  [ { name := "chopped walnuts".data, quantity := mkRat 1 4, unit := "cup".data, notes := none },
    { name := "fresh spinach".data, quantity := 2, unit := "cups".data, notes := none },
    { name := "avocado".data, quantity := 1, unit := "whole".data, notes := none } ]

/-- The `anxiety_boosting_ingredients` list `improve_recipe` computes from
the state it was called on: per-suggestion ingredients, with the fixed
default triple when the loop found none. -/
def anxiety_boosting_of (state : RecipeState) : List Ingredient :=
  let fromSuggestions := (get_improvement_suggestions state).foldl
    (fun acc suggestion => acc ++ suggestion_ingredients suggestion) []
  if fromSuggestions.isEmpty then default_anxiety_boosting_ingredients
  else fromSuggestions

/-- The canned instruction list `improve_recipe` installs wholesale. -/
def enhanced_instructions : List Str :=
  [ "Season salmon fillets with salt and pepper".data,
    "Heat olive oil in a large pan over medium heat".data,
    "Add fresh spinach to the pan and saute until wilted (2-3 minutes)".data,
    "Add chopped walnuts to the spinach and cook for 1 minute to release oils".data,
    "Grill or pan-sear salmon fillets for 4-5 minutes per side until cooked through".data,
    "Slice the avocado and arrange alongside the salmon".data,
    "Serve salmon over the nutrient-rich spinach-walnut mixture with fresh avocado slices".data,
    "Drizzle with extra olive oil and a squeeze of lemon for enhanced mineral absorption".data ]

/-- Python `", ".join(parts)`. -/
def joinStr (sep : Str) (parts : List Str) : Str := (parts.intersperse sep).flatten

/-- The modification message `improve_recipe` appends (its f-string holes
filled with the added ingredient names; decorative emoji dropped). -/
def iteration_message (added_ingredients : List Str) : Str :=
  ("I\x27ve significantly enhanced this recipe with powerful anxiety-reducing superfoods!\n\n**Key Improvements Made:**\nAdded ".data) ++
  joinStr (", ".data) added_ingredients ++
  ("\nEnhanced cooking instructions for optimal nutrient preservation\nOptimized for both flavor and anxiety reduction\n\nThis enhanced version should score much higher for anxiety relief with:\nOmega-3 fatty acids from walnuts for brain health\nMagnesium from spinach for nervous system support\nHealthy fats from avocado for neurotransmitter production\n\nThe recipe is now a true anxiety-fighting powerhouse!".data)

/-- The in-place statement `state.recipe.ingredients.extend(...)` of
`improve_recipe`: `s0` is the state the boost list was computed from,
`state` the state being mutated. -/
def improve_step_ingredients (s0 state : RecipeState) : RecipeState :=
  { state with recipe := state.recipe.map (fun r =>
      { r with ingredients := r.ingredients ++ anxiety_boosting_of s0 }) }

/-- The statement `state.recipe.name = f"Enhanced {current_recipe.name} with
Anxiety-Reducing Superfoods"`; `current_recipe` aliases the recipe object,
whose name is still the pre-mutation one when this line runs, hence the
read from `s0`. -/
def improve_step_name (s0 state : RecipeState) : RecipeState :=
  match s0.recipe with
  | some current_recipe =>
    { state with recipe := state.recipe.map (fun r =>
        { r with name := ("Enhanced ".data) ++ current_recipe.name ++
            (" with Anxiety-Reducing Superfoods".data) }) }
  | none => state

/-- The statement rewriting `state.recipe.description` from the (still
unmutated) original description. -/
def improve_step_description (s0 state : RecipeState) : RecipeState :=
  match s0.recipe with
  | some current_recipe =>
    { state with recipe := state.recipe.map (fun r =>
        { r with description := current_recipe.description ++
            (" Enhanced with proven anxiety-reducing nutrients including omega-3 rich walnuts, magnesium-packed spinach, and heart-healthy avocado for optimal mental wellness.".data) }) }
  | none => state

/-- The statement replacing `state.recipe.instructions` wholesale. -/
def improve_step_instructions (state : RecipeState) : RecipeState :=
  { state with recipe := state.recipe.map (fun r =>
      { r with instructions := enhanced_instructions }) }

/-- The closing `conversation_manager.add_message(...)` of
`improve_recipe`, announcing the added ingredient names. -/
def improve_step_message (s0 state : RecipeState) : RecipeState :=
  add_message state ExpertRole.psychonutritionist
    (iteration_message ((anxiety_boosting_of s0).map (fun ing => ing.name)))
    MessageType.modification none none none

/-- `RecipeIterator.improve_recipe` (`marco/recipe_iterator.py` lines
73-161): no-op unless `should_iterate_recipe`; otherwise extend the
ingredient list with the boost ingredients, rewrite name and description,
replace the instructions, and append a modification message. -/
def improve_recipe (state : RecipeState) : RecipeState :=
  if !should_iterate_recipe state then state
  else
    improve_step_message state
      (improve_step_instructions
        (improve_step_description state
          (improve_step_name state
            (improve_step_ingredients state state))))

/-- An analysis value carrying only a score, for concrete test states. -/
def analysisOf (q : ℚ) : PsychonutritionAnalysis :=
  { anxiety_score := q
    key_nutrients := []
    mechanisms := []
    recommendations := []
    cautions := none }

/-- A minimal recipe with the given ingredients and optional analysis, for
concrete test states. -/
def plainRecipe (ings : List Ingredient) (analysis : Option PsychonutritionAnalysis) :
    Recipe :=
  { name := "Grilled Salmon Bowl".data
    description := "A calm dinner.".data
    prep_time := 10
    cook_time := 20
    servings := 2
    ingredients := ings
    instructions := ["Cook.".data]
    nutrition := none
    psychonutrition_analysis := analysis
    tags := []
    difficulty := "medium".data
    cuisine := none
    season := none
    chef_tips := []
    storage_instructions := none
    variations := [] }

/-- A state with the given recipe and conversation and everything else at
its initial value, for concrete test states. -/
def plainState (recipe : Option Recipe) (conversation : List ExpertMessage) :
    RecipeState :=
  { request :=
      { description := "grilled chicken salad".data
        anxiety_focus := true
        dietary_restrictions := []
        season := "auto".data
        region := "europe".data
        servings := 4 }
    recipe := recipe
    seasonal_variation := none
    experts := []
    conversation := conversation
    conversation_context :=
      { topic := "Recipe Planning".data
        phase := "planning".data
        decisions_made := []
        pending_questions := []
        consensus_reached := false }
    messages := []
    errors := [] }

/-- C4: `should_iterate_recipe` is true exactly when the recipe and its
analysis exist and either the anxiety score is strictly below 6 or a
concern-typed message occurs in the last 5 conversation entries; with an
analysis present and no concern in the window it is true at score 5.9 and
false at score 6.0. -/
theorem should_iterate_recipe_spec :
    (∀ state : RecipeState,
      should_iterate_recipe state = true ↔
        ∃ recipe analysis, state.recipe = some recipe ∧
          recipe.psychonutrition_analysis = some analysis ∧
          (analysis.anxiety_score < 6 ∨
            0 < (lastSlice 5 state.conversation).countP
              (fun msg => msg.message_type == MessageType.concern))) ∧
      should_iterate_recipe
        (plainState (some (plainRecipe [] (some (analysisOf (mkRat 59 10))))) []) = true ∧
      should_iterate_recipe
        (plainState (some (plainRecipe [] (some (analysisOf 6)))) []) = false := by
  refine ⟨fun state => ?_, by decide, by decide⟩
  simp only [should_iterate_recipe, target_anxiety_score]
  cases hr : state.recipe with
  | none => simp [hr]
  | some recipe =>
    cases ha : recipe.psychonutrition_analysis with
    | none => simp [hr, ha]
    | some analysis =>
      by_cases h6 : analysis.anxiety_score < 6
      · simp [hr, ha, h6]
      · simp [hr, ha, h6, Nat.pos_iff_ne_zero]

/-- The keyword scan of `get_improvement_suggestions` contributes nothing
on a window in which no message mentions "add" together with an
improvement keyword. -/
theorem suggestion_fold_nil (msgs : List ExpertMessage)
    (hnk : ∀ msg ∈ msgs,
      (inStr ("add".data) (lower msg.content) &&
        improvement_keywords.any (fun keyword => inStr keyword (lower msg.content))) = false) :
    ∀ acc : List Str, msgs.foldl (fun acc msg =>
      let content := lower msg.content
      if inStr ("add".data) content &&
          improvement_keywords.any (fun keyword => inStr keyword content) then
        acc ++ message_suggestions content
      else acc) acc = acc := by
  induction msgs with
  | nil => intro acc; rfl
  | cons m ms ih =>
    intro acc
    have hm := hnk m (List.mem_cons_self m ms)
    simp only [List.foldl_cons]
    rw [hm, if_neg Bool.false_ne_true]
    exact ih (fun x hx => hnk x (List.mem_cons_of_mem m hx)) acc

/-- With no keyword hit in the window and an anxiety score of at least 5,
`get_improvement_suggestions` returns no suggestion at all: the scan is
empty and the below-5 fallback does not fire. -/
theorem get_improvement_suggestions_empty (state : RecipeState)
    (recipe : Recipe) (analysis : PsychonutritionAnalysis)
    (hrec : state.recipe = some recipe)
    (hana : recipe.psychonutrition_analysis = some analysis)
    (hnk : ∀ msg ∈ lastSlice 10 state.conversation,
      (inStr ("add".data) (lower msg.content) &&
        improvement_keywords.any (fun keyword => inStr keyword (lower msg.content))) = false)
    (h5 : 5 ≤ analysis.anxiety_score) :
    get_improvement_suggestions state = [] := by
  unfold get_improvement_suggestions
  rw [suggestion_fold_nil _ hnk []]
  have hscore : current_anxiety_score state = analysis.anxiety_score := by
    simp only [current_anxiety_score, hrec, hana]
  rw [hscore]
  rw [decide_eq_false (not_lt.mpr h5)]
  simp

/-- C6 (amended): when `should_iterate_recipe` holds, no improvement
keyword occurs in the last 10 messages, and the anxiety score is at least
5.0, `improve_recipe` appends exactly the three default ingredients
(chopped walnuts 0.25 cup, fresh spinach 2 cups, avocado 1 whole) after
the untouched original ingredient entries.  (Below a score of 5.0 the
fallback suggestion texts fire instead and contribute four ingredients —
walnuts, spinach, kale, avocado — see the counterexample.) -/
theorem improve_recipe_appends_defaults (state : RecipeState)
    (recipe : Recipe) (analysis : PsychonutritionAnalysis)
    (hrec : state.recipe = some recipe)
    (hana : recipe.psychonutrition_analysis = some analysis)
    (hit : should_iterate_recipe state = true)
    (hnk : ∀ msg ∈ lastSlice 10 state.conversation,
      (inStr ("add".data) (lower msg.content) &&
        improvement_keywords.any (fun keyword => inStr keyword (lower msg.content))) = false)
    (h5 : 5 ≤ analysis.anxiety_score) :
    (improve_recipe state).recipe.map Recipe.ingredients =
      some (recipe.ingredients ++ default_anxiety_boosting_ingredients) := by
  have hboost : anxiety_boosting_of state = default_anxiety_boosting_ingredients := by
    unfold anxiety_boosting_of
    rw [get_improvement_suggestions_empty state recipe analysis hrec hana hnk h5]
    rfl
  unfold improve_recipe
  rw [hit]
  simp only [Bool.not_true, Bool.false_eq_true, if_false]
  simp only [improve_step_message, add_message, improve_step_instructions,
    improve_step_description, improve_step_name, improve_step_ingredients,
    hboost, hrec, Option.map_some']

/-- A plain pre-existing ingredient for concrete iteration states. -/
def riceIngredient : Ingredient :=
  { name := "rice".data, quantity := 1, unit := "cup".data, notes := none }

/-- A state whose recipe carries an anxiety score of 4.0 and whose
conversation is empty: iteration fires, the keyword scan finds nothing,
and the below-5 fallback suggestions kick in. -/
def lowScoreState : RecipeState :=
  plainState (some (plainRecipe [riceIngredient] (some (analysisOf 4)))) []

/-- C6 (counterexample): on `lowScoreState` — iteration enabled, no
keyword hit possible in the empty conversation — `improve_recipe` does
not append the three default ingredients: the below-5 fallback suggestion
texts fire and their second entry ("Include spinach or kale ...") matches
both the spinach and the kale checks, so four ingredients are appended
(walnuts, spinach, kale, avocado). -/
theorem improve_recipe_default_counterexample :
    should_iterate_recipe lowScoreState = true ∧
      lastSlice 10 lowScoreState.conversation = [] ∧
      (improve_recipe lowScoreState).recipe.map Recipe.ingredients =
        some ([riceIngredient] ++
          [ { name := "chopped walnuts".data, quantity := mkRat 1 4,
              unit := "cup".data, notes := none },
            { name := "fresh spinach".data, quantity := 2,
              unit := "cups".data, notes := none },
            { name := "chopped kale".data, quantity := 1,
              unit := "cup".data, notes := none },
            { name := "avocado".data, quantity := 1,
              unit := "whole".data, notes := none } ]) ∧
      (improve_recipe lowScoreState).recipe.map Recipe.ingredients ≠
        some ([riceIngredient] ++ default_anxiety_boosting_ingredients) := by
  refine ⟨by decide, by decide, by decide, by decide⟩

/-- A state like `lowScoreState` but with anxiety score exactly 5.0, the
lowest score on which the amended C6 statement applies. -/
def midScoreState : RecipeState :=
  plainState (some (plainRecipe [riceIngredient] (some (analysisOf 5)))) []

/-- Witness for `improve_recipe_appends_defaults`: at score 5.0 with an
empty conversation all hypotheses hold and exactly the default triple is
appended after the untouched original entry. -/
theorem improve_recipe_appends_defaults_witness :
    midScoreState.recipe = some (plainRecipe [riceIngredient] (some (analysisOf 5))) ∧
      (plainRecipe [riceIngredient] (some (analysisOf 5))).psychonutrition_analysis =
        some (analysisOf 5) ∧
      should_iterate_recipe midScoreState = true ∧
      (5 : ℚ) ≤ (analysisOf 5).anxiety_score ∧
      (improve_recipe midScoreState).recipe.map Recipe.ingredients =
        some ((plainRecipe [riceIngredient] (some (analysisOf 5))).ingredients ++
          default_anxiety_boosting_ingredients) :=
  ⟨rfl, rfl, by decide, by decide,
    improve_recipe_appends_defaults midScoreState
      (plainRecipe [riceIngredient] (some (analysisOf 5))) (analysisOf 5)
      rfl rfl (by decide) (by decide) (by decide)⟩

/-- C9 (amended): `update_context` applies exactly the provided *non-empty*
arguments — a non-empty topic or phase replaces that context field, a
non-empty decision or question is appended to its list, while `None` *and
the empty string* (both falsy under the source's `if topic:` guards) leave
the field unchanged — always recomputes `consensus_reached` as
`check_consensus` of the state (whose conversation it never modifies), and
changes no other field of the state. -/
theorem update_context_effects (state : RecipeState)
    (topic phase decision question : Option Str) :
    ((update_context state topic phase decision question).request = state.request ∧
      (update_context state topic phase decision question).recipe = state.recipe ∧
      (update_context state topic phase decision question).seasonal_variation =
        state.seasonal_variation ∧
      (update_context state topic phase decision question).experts = state.experts ∧
      (update_context state topic phase decision question).conversation =
        state.conversation ∧
      (update_context state topic phase decision question).messages = state.messages ∧
      (update_context state topic phase decision question).errors = state.errors) ∧
    (update_context state topic phase decision question).conversation_context.topic =
      (match topic with
        | some t => if t ≠ [] then t else state.conversation_context.topic
        | none => state.conversation_context.topic) ∧
    (update_context state topic phase decision question).conversation_context.phase =
      (match phase with
        | some p => if p ≠ [] then p else state.conversation_context.phase
        | none => state.conversation_context.phase) ∧
    (update_context state topic phase decision question).conversation_context.decisions_made =
      (match decision with
        | some d => if d ≠ [] then state.conversation_context.decisions_made ++ [d]
            else state.conversation_context.decisions_made
        | none => state.conversation_context.decisions_made) ∧
    (update_context state topic phase decision question).conversation_context.pending_questions =
      (match question with
        | some q => if q ≠ [] then state.conversation_context.pending_questions ++ [q]
            else state.conversation_context.pending_questions
        | none => state.conversation_context.pending_questions) ∧
    (update_context state topic phase decision question).conversation_context.consensus_reached =
      check_consensus state := by
  rcases topic with _ | t <;> rcases phase with _ | p <;>
    rcases decision with _ | d <;> rcases question with _ | q <;>
      unfold update_context <;> dsimp only <;>
        first
          | (split_ifs <;>
              exact ⟨⟨rfl, rfl, rfl, rfl, rfl, rfl, rfl⟩, rfl, rfl, rfl, rfl, rfl⟩)
          | exact ⟨⟨rfl, rfl, rfl, rfl, rfl, rfl, rfl⟩, rfl, rfl, rfl, rfl, rfl⟩

/-- C9 (counterexample): calling `update_context` with the empty string as
the provided topic does not replace the topic — the source's truthiness
guard `if topic:` treats the empty string like an absent argument, so the
topic stays "Recipe Planning" instead of becoming "". -/
theorem update_context_empty_topic_counterexample :
    (update_context (plainState none []) (some []) none none none).conversation_context.topic =
        ("Recipe Planning".data) ∧
      ("Recipe Planning".data : Str) ≠ [] :=
  ⟨rfl, by decide⟩

/-- Python `f"{q:.1f}"`, approximated with one floor-truncated decimal
digit; no claim or control-flow decision depends on the rendered digits. -/
def fmt1 (q : ℚ) : Str :=
  let n : Int := Rat.floor (q * 10)
  ((toString (n / 10)) ++ "." ++ toString (n % 10)).data

/-- The concern message of `create_expert_discussion`
(`psychonutrition_collaborative.py`), f-string holes filled from the
analysis. -/
def concern_message (analysis : PsychonutritionAnalysis) : Str :=
  ("I\x27ve analyzed this recipe and I have some concerns about its anxiety-reducing potential.\n\nThe current anxiety score is only ".data) ++
  fmt1 analysis.anxiety_score ++
  ("/10. While the recipe includes ".data) ++
  joinStr (", ".data) (analysis.key_nutrients.take 3) ++
  (",\nI think we could significantly improve this by considering some modifications:\n\n1. Could we add more omega-3 rich ingredients like walnuts or chia seeds?\n2. The magnesium content could be boosted with dark leafy greens or pumpkin seeds\n3. For better GABA support, fermented ingredients would be beneficial\n\nWhat do you think, Chef Isabella and Marco? Can we enhance this nutritionally while maintaining the culinary integrity?".data)

/-- The approval message of `create_expert_discussion`, f-string holes
filled from the analysis (bullet prefix plain). -/
def approval_message (analysis : PsychonutritionAnalysis) : Str :=
  ("Excellent work on this recipe! I\x27m pleased to see an anxiety score of ".data) ++
  fmt1 analysis.anxiety_score ++
  ("/10.\n\nThe recipe effectively incorporates ".data) ++
  joinStr (", ".data) analysis.key_nutrients ++
  (" which work through these mechanisms:\n".data) ++
  joinStr ("\n".data) ((analysis.mechanisms.take 3).map (fun mech => ("- ".data) ++ mech)) ++
  ("\n\nThis combination should help users feel more balanced and less anxious. The nutritional synergy here is particularly good -\nthese nutrients work together to support the gut-brain axis and neurotransmitter production.\n\nI give this my full approval from a psychonutrition standpoint!".data)

/-- The closing question to the seasonal expert in
`create_expert_discussion`. -/
def seasonal_question_message : Str :=
  ("Marco, from a seasonal perspective, are these ingredients at their peak right now?\nI want to make sure we\x27re getting maximum nutrient density from fresh, in-season produce.".data)

/-- `create_expert_discussion` from `psychonutrition_collaborative.py`:
initialize the experts when absent, set topic and phase, post Dr. Maya\x27s
concern (score below 5) or approval message, then a question addressed to
the seasonal expert. -/
def create_expert_discussion (state : RecipeState) (analysis : PsychonutritionAnalysis) :
    RecipeState :=
  let state := if state.experts.isEmpty then initialize_experts state else state
  let state := update_context state (some ("Psychonutrition Analysis".data))
    (some ("analysis".data)) none none
  let state :=
    if analysis.anxiety_score < 5 then
      add_message state ExpertRole.psychonutritionist (concern_message analysis)
        MessageType.concern none none none
    else
      add_message state ExpertRole.psychonutritionist (approval_message analysis)
        MessageType.approval none none none
  add_message state ExpertRole.psychonutritionist seasonal_question_message
    MessageType.question (some ExpertRole.seasonal_expert) none none

/-- `analyze_psychonutrition_node` from
`marco/agents/psychonutrition_collaborative.py` (lines 121-172).  The
nutrient database that the source loads from disk is passed as a
parameter; console printing is dropped.  On a missing recipe the source
appends "No recipe to analyze" and returns; otherwise it scores the
recipe, collects matched nutrients (one pass, source iteration order,
skipping falsy mechanism/recommendation fields), installs the analysis on
the recipe and runs the expert discussion.  Nothing in this body raises in
the model, so its own try/except is inert. -/
def analyze_psychonutrition_node (nutrient_db : NutrientDb) (state : RecipeState) :
    RecipeState :=
  match state.recipe with
  | none => { state with errors := state.errors ++ ["No recipe to analyze".data] }
  | some recipe =>
    let anxiety_score := calculate_anxiety_score_collab recipe nutrient_db
    let ingredients := recipe.ingredients.map (fun ing => lower ing.name)
    let matched_nutrients := nutrient_db.nutrients.filter (fun nutrient =>
      (nutrient.2.sources.map lower).any (fun source =>
        ingredients.any (fun ing => inStr source ing)))
    let key_nutrients := matched_nutrients.map (fun nutrient => nutrient.2.name)
    let mechanisms := matched_nutrients.filterMap (fun nutrient =>
      match nutrient.2.mechanism with
      | some m => if m ≠ [] then some m else none
      | none => none)
    let recommendations := matched_nutrients.filterMap (fun nutrient =>
      match nutrient.2.recommendation with
      | some r => if r ≠ [] then some r else none
      | none => none)
    let analysis : PsychonutritionAnalysis :=
      { anxiety_score := anxiety_score
        key_nutrients := key_nutrients.take 5
        mechanisms := mechanisms.take 3
        recommendations := recommendations.take 3
        cautions := none }
    let state := { state with
      recipe := some { recipe with psychonutrition_analysis := some analysis } }
    create_expert_discussion state analysis

/-- `state.recipe.name if state.recipe else "Unknown"` from
`recipe_improvement_node`. -/
def original_recipe_name (state : RecipeState) : Str :=
  match state.recipe with
  | some recipe => recipe.name
  | none => "Unknown".data

/-- The improvement-summary message of `recipe_improvement_node`
(f-string holes filled; `current_anxiety_score` models the
`... if state.recipe.psychonutrition_analysis else 0` reads). -/
def improvement_summary_message (original_name : Str) (original_score : ℚ)
    (state : RecipeState) : Str :=
  let new_score := current_anxiety_score state
  ("Recipe Improvement Summary!\n\n**Before:** ".data) ++ original_name ++
  (" - Anxiety Score: ".data) ++ fmt1 original_score ++
  ("/10\n**After:** ".data) ++ original_recipe_name state ++
  (" - Anxiety Score: ".data) ++ fmt1 new_score ++
  ("/10\n**Improvement:** ".data) ++
  (if 0 < new_score - original_score then ("+".data) else []) ++
  fmt1 (new_score - original_score) ++
  (" points\n\nThe collaborative discussion has led to a significantly better recipe for anxiety management!".data)

/-- The statement-level mutation sequence of the `try` body of
`recipe_improvement_node` (`marco/agents/recipe_improvement.py` lines
9-56) after its `should_iterate_recipe` guard, on entry state `s0`:
the five mutations of `improve_recipe`, the nested (never-raising)
re-analysis, and the closing summary message whose f-string reads
`original_score` / `original_name` captured from `s0`. -/
def recipe_improvement_steps (nutrient_db : NutrientDb) (s0 : RecipeState) :
    List (RecipeState → RecipeState) :=
  [ improve_step_ingredients s0,
    improve_step_name s0,
    improve_step_description s0,
    improve_step_instructions,
    improve_step_message s0,
    analyze_psychonutrition_node nutrient_db,
    fun state => add_message state ExpertRole.psychonutritionist
      (improvement_summary_message (original_recipe_name s0) (current_anxiety_score s0) state)
      MessageType.final_decision none none none ]

/-- Run the statements of a step list in order on a state. -/
def runSteps (steps : List (RecipeState → RecipeState)) (state : RecipeState) :
    RecipeState :=
  steps.foldl (fun st f => f st) state

/-- `recipe_improvement_node` with an explicit model of its `try`/`except`:
`raiseAt = none` is the normal run; `raiseAt = some k` means an internal
exception with text `e` is raised at the k-th statement boundary of the
body, after which the handler appends `"Recipe improvement error: " + e`
to the error list of the state *as mutated so far* — Python mutates the
shared state object in place, so mutations before the raise persist in
what the handler returns. -/
def recipe_improvement_node_model (nutrient_db : NutrientDb) (state : RecipeState)
    (raiseAt : Option Nat) (e : Str) : RecipeState :=
  if !should_iterate_recipe state then state
  else
    match raiseAt with
    | none => runSteps (recipe_improvement_steps nutrient_db state) state
    | some k =>
      let interrupted := runSteps ((recipe_improvement_steps nutrient_db state).take k) state
      { interrupted with errors := interrupted.errors ++
          [("Recipe improvement error: ".data) ++ e] }

/-- The normal (non-raising) `recipe_improvement_node`. -/
def recipe_improvement_node (nutrient_db : NutrientDb) (state : RecipeState) :
    RecipeState :=
  recipe_improvement_node_model nutrient_db state none []

theorem add_message_errors (state : RecipeState) (f : ExpertRole) (c : Str)
    (mt : MessageType) (t : Option ExpertRole) (r : Option Str)
    (m : Option (List (Str × Str))) :
    (add_message state f c mt t r m).errors = state.errors := rfl

theorem add_message_recipe (state : RecipeState) (f : ExpertRole) (c : Str)
    (mt : MessageType) (t : Option ExpertRole) (r : Option Str)
    (m : Option (List (Str × Str))) :
    (add_message state f c mt t r m).recipe = state.recipe := rfl

theorem update_context_errors (state : RecipeState)
    (topic phase decision question : Option Str) :
    (update_context state topic phase decision question).errors = state.errors := by
  rcases topic with _ | t <;> rcases phase with _ | p <;>
    rcases decision with _ | d <;> rcases question with _ | q <;>
      unfold update_context <;> dsimp only <;>
        first
          | (split_ifs <;> rfl)
          | rfl

theorem update_context_recipe (state : RecipeState)
    (topic phase decision question : Option Str) :
    (update_context state topic phase decision question).recipe = state.recipe := by
  rcases topic with _ | t <;> rcases phase with _ | p <;>
    rcases decision with _ | d <;> rcases question with _ | q <;>
      unfold update_context <;> dsimp only <;>
        first
          | (split_ifs <;> rfl)
          | rfl

theorem create_expert_discussion_errors (state : RecipeState)
    (analysis : PsychonutritionAnalysis) :
    (create_expert_discussion state analysis).errors = state.errors := by
  unfold create_expert_discussion
  dsimp only
  split_ifs <;>
    simp only [add_message_errors, update_context_errors, initialize_experts]

theorem create_expert_discussion_recipe (state : RecipeState)
    (analysis : PsychonutritionAnalysis) :
    (create_expert_discussion state analysis).recipe = state.recipe := by
  unfold create_expert_discussion
  dsimp only
  split_ifs <;>
    simp only [add_message_recipe, update_context_recipe, initialize_experts]

/-- On a state that still has a recipe, the re-analysis step leaves the
error list alone (the "No recipe to analyze" branch is unreachable) and
keeps the recipe present. -/
theorem analyze_psychonutrition_node_preserves (nutrient_db : NutrientDb)
    (state : RecipeState) (h : state.recipe.isSome = true) :
    (analyze_psychonutrition_node nutrient_db state).errors = state.errors ∧
      (analyze_psychonutrition_node nutrient_db state).recipe.isSome = true := by
  unfold analyze_psychonutrition_node
  cases hrec : state.recipe with
  | none => rw [hrec] at h; exact absurd h (by simp)
  | some recipe =>
    dsimp only
    constructor
    · rw [create_expert_discussion_errors]
    · rw [create_expert_discussion_recipe]
      rfl

/-- Every statement of the improvement body preserves the error list and
the presence of the recipe. -/
theorem recipe_improvement_step_preserves (nutrient_db : NutrientDb)
    (s0 : RecipeState) (f : RecipeState → RecipeState)
    (hf : f ∈ recipe_improvement_steps nutrient_db s0) (st : RecipeState)
    (hsome : st.recipe.isSome = true) :
    (f st).errors = st.errors ∧ (f st).recipe.isSome = true := by
  simp only [recipe_improvement_steps, List.mem_cons, List.not_mem_nil, or_false] at hf
  rcases hf with rfl | rfl | rfl | rfl | rfl | rfl | rfl
  · unfold improve_step_ingredients
    cases hrec : st.recipe with
    | none => rw [hrec] at hsome; exact absurd hsome (by simp)
    | some r => simp [hrec]
  · unfold improve_step_name
    cases hrec0 : s0.recipe
    · exact ⟨rfl, hsome⟩
    · cases hrec : st.recipe with
      | none => rw [hrec] at hsome; exact absurd hsome (by simp)
      | some r => simp [hrec]
  · unfold improve_step_description
    cases hrec0 : s0.recipe
    · exact ⟨rfl, hsome⟩
    · cases hrec : st.recipe with
      | none => rw [hrec] at hsome; exact absurd hsome (by simp)
      | some r => simp [hrec]
  · unfold improve_step_instructions
    cases hrec : st.recipe with
    | none => rw [hrec] at hsome; exact absurd hsome (by simp)
    | some r => simp [hrec]
  · exact ⟨add_message_errors _ _ _ _ _ _ _, by
      rw [improve_step_message, add_message_recipe]; exact hsome⟩
  · exact analyze_psychonutrition_node_preserves nutrient_db st hsome
  · exact ⟨add_message_errors _ _ _ _ _ _ _, by rw [add_message_recipe]; exact hsome⟩

/-- Running any selection of body statements preserves the error list and
the recipe presence. -/
theorem runSteps_preserves (nutrient_db : NutrientDb) (s0 : RecipeState)
    (L : List (RecipeState → RecipeState))
    (hL : ∀ f ∈ L, f ∈ recipe_improvement_steps nutrient_db s0) :
    ∀ st : RecipeState, st.recipe.isSome = true →
      (runSteps L st).errors = st.errors ∧ (runSteps L st).recipe.isSome = true := by
  induction L with
  | nil => intro st h; exact ⟨rfl, h⟩
  | cons f fs ih =>
    intro st h
    have hf := recipe_improvement_step_preserves nutrient_db s0 f
      (hL f (List.mem_cons_self f fs)) st h
    have hrest := ih (fun g hg => hL g (List.mem_cons_of_mem f hg)) (f st) hf.2
    exact ⟨hrest.1.trans hf.1, hrest.2⟩

/-- A state on which the iteration policy fires has a recipe. -/
theorem should_iterate_recipe_isSome (state : RecipeState)
    (h : should_iterate_recipe state = true) : state.recipe.isSome = true := by
  unfold should_iterate_recipe at h
  cases hrec : state.recipe with
  | none => rw [hrec] at h; exact absurd h (by simp)
  | some recipe => rfl

/-- C2 (amended): when the improvement step's body raises an internal
exception at any statement boundary, the node catches it, the run
continues, and the returned state's error list is exactly the entry error
list with the human-readable "Recipe improvement error: ..." message
appended; but because the body mutates the shared state in place, the
other fields retain whatever mutations preceded the raise — the state is
otherwise unchanged precisely in the case the exception occurs before the
first mutating statement (raise position 0). -/
theorem recipe_improvement_node_error_append (nutrient_db : NutrientDb)
    (state : RecipeState) (k : Nat) (e : Str)
    (hit : should_iterate_recipe state = true) :
    (recipe_improvement_node_model nutrient_db state (some k) e).errors =
        state.errors ++ [("Recipe improvement error: ".data) ++ e] ∧
      recipe_improvement_node_model nutrient_db state (some 0) e =
        { state with errors := state.errors ++
            [("Recipe improvement error: ".data) ++ e] } := by
  constructor
  · unfold recipe_improvement_node_model
    rw [hit]
    simp only [Bool.not_true, Bool.false_eq_true, if_false]
    have hpres := runSteps_preserves nutrient_db state
      ((recipe_improvement_steps nutrient_db state).take k)
      (fun f hf => List.take_subset k _ hf) state
      (should_iterate_recipe_isSome state hit)
    simp only [hpres.1]
  · unfold recipe_improvement_node_model
    rw [hit]
    rfl

/-- The empty nutrient database (the source's fallback when
`nutrients.json` is absent). -/
def emptyNutrientDb : NutrientDb := { nutrients := [], food_combinations := [] }

/-- C2 (counterexample): on `lowScoreState` an exception raised right
after the body's first mutating statement (the ingredient extension) is
caught and logged, but the returned state's recipe differs from the recipe
at step entry — the step is not "otherwise unchanged". -/
theorem recipe_improvement_node_mutation_counterexample :
    (recipe_improvement_node_model emptyNutrientDb lowScoreState (some 1)
        ("boom".data)).errors =
      lowScoreState.errors ++ [("Recipe improvement error: boom".data)] ∧
    (recipe_improvement_node_model emptyNutrientDb lowScoreState (some 1)
        ("boom".data)).recipe ≠ lowScoreState.recipe := by
  exact ⟨by decide, by decide⟩

/-- Witness for `recipe_improvement_node_error_append` at a concrete state
and raise position 0. -/
theorem recipe_improvement_node_error_append_witness :
    should_iterate_recipe midScoreState = true ∧
      recipe_improvement_node_model emptyNutrientDb midScoreState (some 0)
          ("LLM unavailable".data) =
        { midScoreState with errors := midScoreState.errors ++
            [("Recipe improvement error: ".data) ++ ("LLM unavailable".data)] } :=
  ⟨by decide,
    (recipe_improvement_node_error_append emptyNutrientDb midScoreState 0
      ("LLM unavailable".data) (by decide)).2⟩

/-- The step names of the workflow graph wired in `create_recipe_graph`
(`marco/graph.py`), plus the END marker. -/
inductive GNode
  | generate_recipe
  | psychonutrition
  | recipe_improvement
  | seasonal_check
  | seasonal
  | chef_review
  | expert_summary
  | END
deriving DecidableEq

/-- `should_optimize_seasonal` (`marco/graph.py` lines 17-21): Python
truthiness of the season string plus the "auto" test. -/
def should_optimize_seasonal (state : RecipeState) : GNode :=
  if state.request.season ≠ [] ∧ state.request.season ≠ ("auto".data) then
    GNode.seasonal
  else GNode.chef_review

/-- `should_analyze_psychonutrition` (`marco/graph.py` lines 29-33). -/
def should_analyze_psychonutrition (state : RecipeState) : GNode :=
  if state.request.anxiety_focus then GNode.psychonutrition
  else GNode.seasonal_check

/-- `should_improve_recipe` (`marco/graph.py` lines 35-41). -/
def should_improve_recipe (state : RecipeState) : GNode :=
  match state.recipe with
  | some recipe =>
    match recipe.psychonutrition_analysis with
    | some analysis =>
      if analysis.anxiety_score < 6 then GNode.recipe_improvement
      else GNode.seasonal_check
    | none => GNode.seasonal_check
  | none => GNode.seasonal_check

/-- `seasonal_check_node` (`marco/graph.py`): passthrough. -/
def seasonal_check_node (state : RecipeState) : RecipeState := state

/-- The edge map wired by `create_recipe_graph` (`marco/graph.py` lines
45-115).  A conditional edge consults its routing function on the state
the node body just produced; unconditional edges are constant; END has no
successor. -/
def nextNode (node : GNode) (state : RecipeState) : Option GNode :=
  match node with
  | GNode.generate_recipe => some (should_analyze_psychonutrition state)
  | GNode.psychonutrition => some (should_improve_recipe state)
  | GNode.recipe_improvement => some GNode.seasonal_check
  | GNode.seasonal_check => some (should_optimize_seasonal state)
  | GNode.seasonal => some GNode.chef_review
  | GNode.chef_review => some GNode.expert_summary
  | GNode.expert_summary => some GNode.END
  | GNode.END => none

/-- The visitation order of the compiled graph starting at a node: run the
node's body, consult the edge map on the resulting state, continue.  The
bodies are a parameter (the generation and expert steps call an external
language model); `fuel` bounds the recursion, and 10 exceeds the length of
every path of this acyclic graph. -/
def graphTrace (bodies : GNode → RecipeState → RecipeState) :
    Nat → GNode → RecipeState → List GNode
  | 0, node, _ => [node]
  | fuel+1, node, state =>
    if node = GNode.END then [GNode.END]
    else
      match nextNode node (bodies node state) with
      | some next => node :: graphTrace bodies fuel next (bodies node state)
      | none => [node]

/-- C3: on a request with `anxiety_focus = false` and `season = "winter"`,
and step bodies that never write the request field (no node of the source
ever assigns `state.request`), the workflow visits exactly
generate_recipe, seasonal_check, seasonal, chef_review, expert_summary,
END — psychonutrition and recipe_improvement are never visited. -/
theorem winter_no_anxiety_path (bodies : GNode → RecipeState → RecipeState)
    (hreq : ∀ node st, (bodies node st).request = st.request)
    (state : RecipeState)
    (hfocus : state.request.anxiety_focus = false)
    (hseason : state.request.season = ("winter".data)) :
    graphTrace bodies 10 GNode.generate_recipe state =
      [GNode.generate_recipe, GNode.seasonal_check, GNode.seasonal,
        GNode.chef_review, GNode.expert_summary, GNode.END] ∧
      GNode.psychonutrition ∉ graphTrace bodies 10 GNode.generate_recipe state ∧
      GNode.recipe_improvement ∉ graphTrace bodies 10 GNode.generate_recipe state := by
  have e1 : should_analyze_psychonutrition (bodies GNode.generate_recipe state) =
      GNode.seasonal_check := by
    unfold should_analyze_psychonutrition
    rw [hreq, hfocus]
    rfl
  have e2 : should_optimize_seasonal
      (bodies GNode.seasonal_check (bodies GNode.generate_recipe state)) =
      GNode.seasonal := by
    unfold should_optimize_seasonal
    rw [hreq, hreq, hseason, if_pos (by decide)]
  have htrace : graphTrace bodies 10 GNode.generate_recipe state =
      [GNode.generate_recipe, GNode.seasonal_check, GNode.seasonal,
        GNode.chef_review, GNode.expert_summary, GNode.END] := by
    show GNode.generate_recipe :: graphTrace bodies 9
        (should_analyze_psychonutrition (bodies GNode.generate_recipe state))
        (bodies GNode.generate_recipe state) = _
    rw [e1]
    show GNode.generate_recipe :: GNode.seasonal_check :: graphTrace bodies 8
        (should_optimize_seasonal (bodies GNode.seasonal_check
          (bodies GNode.generate_recipe state)))
        (bodies GNode.seasonal_check (bodies GNode.generate_recipe state)) = _
    rw [e2]
    rfl
  refine ⟨htrace, ?_, ?_⟩ <;> rw [htrace] <;> decide

/-- A request with anxiety focus off and winter season, in an otherwise
fresh state. -/
def winterState : RecipeState :=
  { request :=
      { description := "hearty vegetable soup".data
        anxiety_focus := false
        dietary_restrictions := []
        season := "winter".data
        region := "europe".data
        servings := 4 }
    recipe := none
    seasonal_variation := none
    experts := []
    conversation := []
    conversation_context :=
      { topic := "Recipe Planning".data
        phase := "planning".data
        decisions_made := []
        pending_questions := []
        consensus_reached := false }
    messages := []
    errors := [] }

/-- Witness for `winter_no_anxiety_path` with identity step bodies on
`winterState`. -/
theorem winter_no_anxiety_path_witness :
    winterState.request.anxiety_focus = false ∧
      winterState.request.season = ("winter".data) ∧
      graphTrace (fun _ st => st) 10 GNode.generate_recipe winterState =
        [GNode.generate_recipe, GNode.seasonal_check, GNode.seasonal,
          GNode.chef_review, GNode.expert_summary, GNode.END] :=
  ⟨rfl, rfl,
    (winter_no_anxiety_path (fun _ st => st) (fun _ _ => rfl) winterState rfl rfl).1⟩

/-- C8: the basic and collaborative scorers compute the same pre-probiotic
sum; where some probiotic source matches an ingredient the basic path adds
0.5 and the collaborative path 1.0 before the cap, and where none matches
the two return equal scores. -/
theorem scoring_paths_probiotic_variance (recipe : Recipe) (nutrient_db : NutrientDb) :
    (has_probiotic_match recipe nutrient_db = true →
      calculate_anxiety_score recipe nutrient_db =
          min 10 (pre_probiotic_score recipe nutrient_db + 1/2) ∧
        calculate_anxiety_score_collab recipe nutrient_db =
          min 10 (pre_probiotic_score recipe nutrient_db + 1)) ∧
      (has_probiotic_match recipe nutrient_db = false →
        calculate_anxiety_score recipe nutrient_db =
          calculate_anxiety_score_collab recipe nutrient_db) := by
  constructor
  · intro h
    rw [calculate_anxiety_score_eq, calculate_anxiety_score_collab_eq, h]
    constructor <;> simp
  · intro h
    rw [calculate_anxiety_score_eq, calculate_anxiety_score_collab_eq, h]
    simp

/-- A recipe whose single ingredient name contains a probiotic source. -/
def yogurtRecipe : Recipe :=
  plainRecipe
    [ { name := "Greek yogurt".data, quantity := 1, unit := "cup".data, notes := none } ]
    none

/-- A database whose probiotics entry lists yogurt as a source. -/
def probioticDb : NutrientDb :=
  { nutrients :=
      [ ( ("probiotics".data),
          { name := "Probiotics".data
            sources := ["yogurt".data, "kefir".data, "kimchi".data]
            anxiety_benefit := "Supports the gut-brain axis".data
            mechanism := none
            recommendation := none } ) ]
    food_combinations := [] }

/-- Witness for `scoring_paths_probiotic_variance`: with a matching
probiotic source the two paths add their distinct bonuses; with the empty
database they agree. -/
theorem scoring_paths_probiotic_variance_witness :
    (has_probiotic_match yogurtRecipe probioticDb = true ∧
        calculate_anxiety_score yogurtRecipe probioticDb =
            min 10 (pre_probiotic_score yogurtRecipe probioticDb + 1/2) ∧
          calculate_anxiety_score_collab yogurtRecipe probioticDb =
            min 10 (pre_probiotic_score yogurtRecipe probioticDb + 1)) ∧
      (has_probiotic_match yogurtRecipe emptyNutrientDb = false ∧
        calculate_anxiety_score yogurtRecipe emptyNutrientDb =
          calculate_anxiety_score_collab yogurtRecipe emptyNutrientDb) :=
  ⟨⟨by decide,
      (scoring_paths_probiotic_variance yogurtRecipe probioticDb).1 (by decide)⟩,
    ⟨by decide,
      (scoring_paths_probiotic_variance yogurtRecipe emptyNutrientDb).2 (by decide)⟩⟩

/-- C10: both scorers depend on the recipe only through the sequence of
case-lowered ingredient names: recipes agreeing on those names — whatever
their quantities, units, notes, or other recipe fields — score equally
against every database. -/
theorem anxiety_score_name_invariance (r1 r2 : Recipe) (nutrient_db : NutrientDb)
    (h : r1.ingredients.map (fun ing => lower ing.name) =
      r2.ingredients.map (fun ing => lower ing.name)) :
    calculate_anxiety_score r1 nutrient_db = calculate_anxiety_score r2 nutrient_db ∧
      calculate_anxiety_score_collab r1 nutrient_db =
        calculate_anxiety_score_collab r2 nutrient_db := by
  constructor
  · unfold calculate_anxiety_score
    rw [h]
  · unfold calculate_anxiety_score_collab
    rw [h]

/-- A salmon recipe with capitalised ingredient name. -/
def salmonRecipeA : Recipe :=
  { name := "Salmon Plate".data
    description := "Dinner.".data
    prep_time := 5
    cook_time := 10
    servings := 2
    ingredients :=
      [ { name := "Fresh Atlantic Salmon Fillet".data, quantity := 2,
          unit := "fillets".data, notes := none } ]
    instructions := ["Grill.".data]
    nutrition := none
    psychonutrition_analysis := none
    tags := []
    difficulty := "easy".data
    cuisine := none
    season := none
    chef_tips := []
    storage_instructions := none
    variations := [] }

/-- The same ingredient name in lower case with different quantity, unit,
notes and different recipe metadata everywhere else. -/
def salmonRecipeB : Recipe :=
  { name := "Completely Different Name".data
    description := "Another description.".data
    prep_time := 99
    cook_time := 1
    servings := 12
    ingredients :=
      [ { name := "fresh atlantic salmon fillet".data, quantity := mkRat 1 4,
          unit := "kg".data, notes := some ("wild caught".data) } ]
    instructions := ["Poach.".data, "Rest.".data]
    nutrition := none
    psychonutrition_analysis := none
    tags := ["dinner".data]
    difficulty := "hard".data
    cuisine := some ("nordic".data)
    season := some ("winter".data)
    chef_tips := ["Salt early.".data]
    storage_instructions := some ("Refrigerate.".data)
    variations := ["Smoked.".data] }

/-- Witness for `anxiety_score_name_invariance` on two recipes equal only
up to letter case of the ingredient name. -/
theorem anxiety_score_name_invariance_witness :
    salmonRecipeA.ingredients.map (fun ing => lower ing.name) =
        salmonRecipeB.ingredients.map (fun ing => lower ing.name) ∧
      calculate_anxiety_score salmonRecipeA probioticDb =
        calculate_anxiety_score salmonRecipeB probioticDb :=
  ⟨by decide,
    (anxiety_score_name_invariance salmonRecipeA salmonRecipeB probioticDb
      (by decide)).1⟩
